import Mathlib

/-!
# Verification of the `LoadManager` fund-load rule engine (`processor.py`)

Shallow embedding of the repository's load-processing logic.

Modelling conventions:
* A request identifier and a customer identifier are opaque; we use `ℕ`.
* Monetary amounts are exact rationals `ℚ` (the source parses decimal
  currency strings such as `$5000.01`).
* A timestamp is a `ℕ` counting seconds since `0001-01-01T00:00:00`
  (Python's `datetime.min`), which in the proleptic Gregorian calendar is a
  Monday.  Naive `datetime` arithmetic is uniform (86400-second days,
  no leap seconds or timezones), so `datetime.combine(d, time.min)` is
  flooring to a multiple of 86400 and `weekday()` is `(t / 86400) % 7`
  with day 0 = Monday, exactly as Python's `date.weekday` behaves.
* A Python `dict` is an insertion-ordered association list; assigning to an
  existing key replaces its value in place, assigning a fresh key appends.
  The outer `defaultdict` auto-vivifies an empty per-customer dict on any
  key access (`cacheVivify`).
-/

namespace Processor

/-- `Load` from `processor.py`: a fund-load request. -/
structure Load where
  id : ℕ
  customer_id : ℕ
  amount : ℚ
  time : ℕ
  deriving DecidableEq, Repr

/-- `LoadOutcome` from `processor.py`: the decision for a processed load. -/
structure LoadOutcome where
  id : ℕ
  customer_id : ℕ
  accepted : Bool
  deriving DecidableEq, Repr

/-- Python dict lookup on an insertion-ordered association list: the value
of the (unique) matching key. -/
def dictGet {α : Type} (d : List (ℕ × α)) (k : ℕ) : Option α :=
  match d with
  | [] => none
  | a :: rest => if a.1 = k then some a.2 else dictGet rest k

/-- Python dict assignment: replace the value of an existing key in place
(keys are unique, so the first match is the only one), append a fresh key
at the end. -/
def dictSet {α : Type} (d : List (ℕ × α)) (k : ℕ) (v : α) : List (ℕ × α) :=
  match d with
  | [] => [(k, v)]
  | a :: rest => if a.1 = k then (k, v) :: rest else a :: dictSet rest k v

/-- A customer's history: request id ↦ `some load` (accepted) or `none`
(rejected marker), insertion-ordered.  Mirrors the inner dict of
`LoadManager.loads_cache`. -/
abbrev CustomerHistory := List (ℕ × Option Load)

/-- `LoadManager.loads_cache`: customer id ↦ history. -/
abbrev Cache := List (ℕ × CustomerHistory)

/-- The history the Python code reads for `cid` (`defaultdict` yields the
empty dict for an unseen customer). -/
def cacheHistory (c : Cache) (cid : ℕ) : CustomerHistory :=
  (dictGet c cid).getD []

/-- The side effect of any `loads_cache[cid]` access: a `defaultdict`
inserts an empty history for an unseen customer. -/
def cacheVivify (c : Cache) (cid : ℕ) : Cache :=
  if (dictGet c cid).isSome then c else c ++ [(cid, [])]

/-- `LoadManager._get_customer_loads_from_cache`: the values of the
customer's history with the `None` (rejected) entries filtered out. -/
def get_customer_loads_from_cache (c : Cache) (cid : ℕ) : List Load :=
  ((cacheHistory c cid).map Prod.snd).filterMap id

/-- `LoadManager.get_day_start_end_times`: midnight of the timestamp's UTC
calendar day, and midnight of the next day. -/
def get_day_start_end_times (t : ℕ) : ℕ × ℕ :=
  let day_start := t / 86400 * 86400
  (day_start, day_start + 86400)

/-- `LoadManager.get_week_start_end_times`: subtract `weekday()` days
(Monday = 0), then floor to midnight; week end is 7 days later. -/
def get_week_start_end_times (t : ℕ) : ℕ × ℕ :=
  let monday_time := t - t / 86400 % 7 * 86400
  let week_start := monday_time / 86400 * 86400
  (week_start, week_start + 7 * 86400)

/-- The half-open window test `start_time <= l.time < end_time` used by both
criteria in `processor.py`. -/
def in_window (start_time end_time t : ℕ) : Bool :=
  decide (start_time ≤ t ∧ t < end_time)

def MAX_LOAD_AMOUNT_PER_WEEK : ℚ := 20000

def MAX_LOAD_AMOUNT_PER_DAY : ℚ := 5000

def MAX_NUM_LOADS_PER_DAY : ℕ := 3

/-- `LoadManager._meets_max_load_criteria`: sum the amounts of the
customer's accepted loads inside the window and compare with the cap. -/
def meets_max_load_criteria (c : Cache) (load : Load) (start_time end_time : ℕ)
    (max_load_amount : ℚ) : Bool :=
  let loads := get_customer_loads_from_cache c load.customer_id
  let amount_so_far :=
    ((loads.filter (fun l => in_window start_time end_time l.time)).map Load.amount).sum
  decide (amount_so_far + load.amount ≤ max_load_amount)

/-- `LoadManager._meets_max_num_load_criteria`: count the customer's
accepted loads inside the window and compare with the cap. -/
def meets_max_num_load_criteria (c : Cache) (load : Load) (start_time end_time : ℕ)
    (max_num_loads : ℕ) : Bool :=
  let loads := get_customer_loads_from_cache c load.customer_id
  let num_loads_so_far :=
    (loads.filter (fun l => in_window start_time end_time l.time)).length
  decide (num_loads_so_far < max_num_loads)

/-- Lookup of the `(customer, request-id)` entry, as in
`load.id in self.loads_cache[load.customer_id].keys()` (without the
vivification side effect, which is accounted for separately). -/
def entryLookup (c : Cache) (cid i : ℕ) : Option (Option Load) :=
  dictGet (cacheHistory c cid) i

/-- The conjunction of the three rules of `_load_amount`, evaluated (as the
source does, via `all([...])`) on a given cache state. -/
def passes_all_rules (c : Cache) (load : Load) : Bool :=
  let day := get_day_start_end_times load.time
  let week := get_week_start_end_times load.time
  meets_max_load_criteria c load day.1 day.2 MAX_LOAD_AMOUNT_PER_DAY &&
  meets_max_load_criteria c load week.1 week.2 MAX_LOAD_AMOUNT_PER_WEEK &&
  meets_max_num_load_criteria c load day.1 day.2 MAX_NUM_LOADS_PER_DAY

/-- `LoadManager._load_amount`: duplicate suppression, rule evaluation,
decision recording.  Returns the updated cache and `none` when the load is
ignored.  The first `loads_cache[customer_id]` access vivifies the
customer's (possibly empty) history. -/
def load_amount (c : Cache) (load : Load) : Cache × Option LoadOutcome :=
  let c1 := cacheVivify c load.customer_id
  if (dictGet (cacheHistory c1 load.customer_id) load.id).isSome then
    (c1, none)
  else if passes_all_rules c1 load then
    (dictSet c1 load.customer_id
       (dictSet (cacheHistory c1 load.customer_id) load.id (some load)),
     some ⟨load.id, load.customer_id, true⟩)
  else
    (dictSet c1 load.customer_id
       (dictSet (cacheHistory c1 load.customer_id) load.id none),
     some ⟨load.id, load.customer_id, false⟩)

/-- The comprehension `[self._load_amount(load) for load in loads]`:
one `Option LoadOutcome` per request, threading the cache left to right. -/
def load_amount_list (c : Cache) (loads : List Load) : Cache × List (Option LoadOutcome) :=
  match loads with
  | [] => (c, [])
  | l :: rest =>
    let r := load_amount c l
    let rr := load_amount_list r.1 rest
    (rr.1, r.2 :: rr.2)

/-- `LoadManager.process_loads`: process in order, then drop the `None`
outcomes of ignored loads. -/
def process_loads (c : Cache) (loads : List Load) : Cache × List LoadOutcome :=
  let r := load_amount_list c loads
  (r.1, r.2.filterMap id)

/-- Specification-side reading of the aggregation base: the accepted-load
entries of the customer's raw history whose timestamps lie in the window. -/
def accepted_entries_in_window (c : Cache) (cid start_time end_time : ℕ) : List Load :=
  (cacheHistory c cid).filterMap (fun p =>
    match p.2 with
    | some l => if start_time ≤ l.time ∧ l.time < end_time then some l else none
    | none => none)

/-! ## Association-list (Python dict) lemmas -/

theorem dictGet_dictSet_self {α : Type} (d : List (ℕ × α)) (k : ℕ) (v : α) :
    dictGet (dictSet d k v) k = some v := by
  induction d with
  | nil => simp [dictGet, dictSet]
  | cons a d ih =>
    by_cases h : a.1 = k
    · simp [dictSet, h, dictGet]
    · simp [dictSet, h, dictGet, ih]

theorem dictGet_dictSet_ne {α : Type} (d : List (ℕ × α)) (k k' : ℕ) (v : α)
    (h : k' ≠ k) : dictGet (dictSet d k v) k' = dictGet d k' := by
  have hks : ¬ (k = k') := fun hh => h hh.symm
  induction d with
  | nil => simp [dictGet, dictSet, hks]
  | cons a d ih =>
    by_cases ha : a.1 = k
    · have : ¬ (k = k') := fun hh => h hh.symm
      simp [dictSet, ha, dictGet, this, ha ▸ this]
    · simp only [dictSet, ha, if_false, dictGet]
      by_cases ha' : a.1 = k'
      · simp [ha']
      · simp [ha', ih]

theorem dictSet_of_get_none {α : Type} (d : List (ℕ × α)) (k : ℕ) (v : α)
    (h : dictGet d k = none) : dictSet d k v = d ++ [(k, v)] := by
  induction d with
  | nil => rfl
  | cons a d ih =>
    by_cases ha : a.1 = k
    · simp [dictGet, ha] at h
    · simp only [dictGet, ha, if_false] at h
      simp [dictSet, ha, ih h]

theorem dictGet_append_single_of_none {α : Type} (d : List (ℕ × α)) (k k' : ℕ) (v : α)
    (h : dictGet d k' = none) :
    dictGet (d ++ [(k, v)]) k' = if k = k' then some v else none := by
  induction d with
  | nil => rfl
  | cons a d ih =>
    by_cases ha : a.1 = k'
    · simp [dictGet, ha] at h
    · simp only [dictGet, ha, if_false] at h
      simp [dictGet, List.cons_append, ha, ih h]

theorem dictGet_append_single_of_some {α : Type} (d : List (ℕ × α)) (k k' : ℕ) (v w : α)
    (h : dictGet d k' = some w) : dictGet (d ++ [(k, v)]) k' = some w := by
  induction d with
  | nil => simp [dictGet] at h
  | cons a d ih =>
    by_cases ha : a.1 = k'
    · simp only [dictGet, ha, if_true] at h
      simp [dictGet, ha, h]
    · simp only [dictGet, ha, if_false] at h
      simp [dictGet, ha, ih h]

/-! ## Cache lemmas -/

theorem dictGet_cacheVivify (c : Cache) (cid cid' : ℕ) :
    dictGet (cacheVivify c cid) cid' =
      if cid' = cid ∧ dictGet c cid = none then some [] else dictGet c cid' := by
  unfold cacheVivify
  by_cases hs : (dictGet c cid).isSome
  · rw [Option.isSome_iff_exists] at hs
    obtain ⟨h0, hh⟩ := hs
    simp [hh, if_true]
  · have h0 : dictGet c cid = none := by
      cases hv : dictGet c cid
      · rfl
      · rw [hv] at hs; simp at hs
    simp only [h0, Option.isSome_none, Bool.false_eq_true, if_false]
    by_cases he : cid' = cid
    · subst he
      rw [dictGet_append_single_of_none c cid' cid' [] h0]
      simp [h0]
    · have hes : ¬ (cid = cid') := fun hh => he hh.symm
      cases hv : dictGet c cid'
      · rw [dictGet_append_single_of_none c cid cid' [] hv]
        simp [he, hes, hv]
      · rw [dictGet_append_single_of_some c cid cid' [] _ hv]
        simp [he]

theorem cacheHistory_cacheVivify (c : Cache) (cid cid' : ℕ) :
    cacheHistory (cacheVivify c cid) cid' = cacheHistory c cid' := by
  unfold cacheHistory
  rw [dictGet_cacheVivify]
  by_cases h : cid' = cid ∧ dictGet c cid = none
  · obtain ⟨h1, h2⟩ := h
    subst h1
    simp [h2]
  · simp [h]

theorem get_customer_loads_congr (c₁ c₂ : Cache) (cid : ℕ)
    (h : cacheHistory c₁ cid = cacheHistory c₂ cid) :
    get_customer_loads_from_cache c₁ cid = get_customer_loads_from_cache c₂ cid := by
  unfold get_customer_loads_from_cache
  rw [h]

theorem meets_max_load_criteria_congr (c₁ c₂ : Cache) (l : Load) (s e : ℕ) (q : ℚ)
    (h : cacheHistory c₁ l.customer_id = cacheHistory c₂ l.customer_id) :
    meets_max_load_criteria c₁ l s e q = meets_max_load_criteria c₂ l s e q := by
  unfold meets_max_load_criteria
  rw [get_customer_loads_congr c₁ c₂ l.customer_id h]

theorem meets_max_num_load_criteria_congr (c₁ c₂ : Cache) (l : Load) (s e m : ℕ)
    (h : cacheHistory c₁ l.customer_id = cacheHistory c₂ l.customer_id) :
    meets_max_num_load_criteria c₁ l s e m = meets_max_num_load_criteria c₂ l s e m := by
  unfold meets_max_num_load_criteria
  rw [get_customer_loads_congr c₁ c₂ l.customer_id h]

theorem passes_all_rules_congr (c₁ c₂ : Cache) (l : Load)
    (h : cacheHistory c₁ l.customer_id = cacheHistory c₂ l.customer_id) :
    passes_all_rules c₁ l = passes_all_rules c₂ l := by
  simp only [passes_all_rules]
  rw [meets_max_load_criteria_congr c₁ c₂ l _ _ _ h,
      meets_max_load_criteria_congr c₁ c₂ l _ _ _ h,
      meets_max_num_load_criteria_congr c₁ c₂ l _ _ _ h]

theorem passes_all_rules_cacheVivify (c : Cache) (cid : ℕ) (l : Load) :
    passes_all_rules (cacheVivify c cid) l = passes_all_rules c l :=
  passes_all_rules_congr _ _ _ (cacheHistory_cacheVivify c cid l.customer_id)

theorem dictGet_isSome_of_entryLookup_some (c : Cache) (cid i : ℕ) (e : Option Load)
    (h : entryLookup c cid i = some e) : (dictGet c cid).isSome = true := by
  cases hv : dictGet c cid
  · unfold entryLookup cacheHistory at h
    rw [hv] at h
    simp [dictGet] at h
  · rfl

theorem cacheVivify_of_isSome (c : Cache) (cid : ℕ)
    (h : (dictGet c cid).isSome = true) : cacheVivify c cid = c := by
  unfold cacheVivify
  simp [h]

/-! ## Behaviour of `load_amount` on duplicate and on fresh pairs -/

theorem load_amount_dup (c : Cache) (l : Load) (e : Option Load)
    (h : entryLookup c l.customer_id l.id = some e) : load_amount c l = (c, none) := by
  have hc := dictGet_isSome_of_entryLookup_some c l.customer_id l.id e h
  have hv : cacheVivify c l.customer_id = c := cacheVivify_of_isSome c l.customer_id hc
  unfold entryLookup at h
  simp [load_amount, hv, h]

theorem load_amount_fresh (c : Cache) (l : Load)
    (h : entryLookup c l.customer_id l.id = none) :
    load_amount c l =
      (dictSet (cacheVivify c l.customer_id) l.customer_id
         (dictSet (cacheHistory c l.customer_id) l.id
            (if passes_all_rules c l then some l else none)),
       some ⟨l.id, l.customer_id, passes_all_rules c l⟩) := by
  have hh : cacheHistory (cacheVivify c l.customer_id) l.customer_id
      = cacheHistory c l.customer_id := cacheHistory_cacheVivify c l.customer_id l.customer_id
  have hdup : dictGet (cacheHistory (cacheVivify c l.customer_id) l.customer_id) l.id = none := by
    rw [hh]; exact h
  have hp : passes_all_rules (cacheVivify c l.customer_id) l = passes_all_rules c l :=
    passes_all_rules_cacheVivify c l.customer_id l
  have h' : dictGet (cacheHistory c l.customer_id) l.id = none := h
  cases hcase : passes_all_rules c l
  · rw [hcase] at hp
    simp [load_amount, hdup, hh, hp, hcase, h']
  · rw [hcase] at hp
    simp [load_amount, hdup, hh, hp, hcase, h']

theorem entryLookup_dictSet_self (c : Cache) (cid : ℕ) (hist : CustomerHistory) (i : ℕ) :
    entryLookup (dictSet c cid hist) cid i = dictGet hist i := by
  unfold entryLookup cacheHistory
  rw [dictGet_dictSet_self]
  rfl

theorem entryLookup_dictSet_ne (c : Cache) (cid cid' : ℕ) (hist : CustomerHistory) (i : ℕ)
    (h : cid' ≠ cid) : entryLookup (dictSet c cid hist) cid' i = entryLookup c cid' i := by
  unfold entryLookup cacheHistory
  rw [dictGet_dictSet_ne _ _ _ _ h]

theorem entryLookup_cacheVivify (c : Cache) (cid cid' i : ℕ) :
    entryLookup (cacheVivify c cid) cid' i = entryLookup c cid' i := by
  unfold entryLookup
  rw [cacheHistory_cacheVivify]

theorem meets_max_load_criteria_congr_loads (c₁ c₂ : Cache) (l : Load) (s e : ℕ) (q : ℚ)
    (h : get_customer_loads_from_cache c₁ l.customer_id
       = get_customer_loads_from_cache c₂ l.customer_id) :
    meets_max_load_criteria c₁ l s e q = meets_max_load_criteria c₂ l s e q := by
  unfold meets_max_load_criteria
  rw [h]

theorem meets_max_num_load_criteria_congr_loads (c₁ c₂ : Cache) (l : Load) (s e m : ℕ)
    (h : get_customer_loads_from_cache c₁ l.customer_id
       = get_customer_loads_from_cache c₂ l.customer_id) :
    meets_max_num_load_criteria c₁ l s e m = meets_max_num_load_criteria c₂ l s e m := by
  unfold meets_max_num_load_criteria
  rw [h]

/-- Filtering the accepted loads by the window is the same as collecting the
accepted-load history entries whose timestamps lie in the window. -/
theorem filter_loads_eq_accepted_entries (c : Cache) (cid s e : ℕ) :
    (get_customer_loads_from_cache c cid).filter (fun l => in_window s e l.time) =
      accepted_entries_in_window c cid s e := by
  unfold get_customer_loads_from_cache accepted_entries_in_window
  generalize cacheHistory c cid = hl
  induction hl with
  | nil => rfl
  | cons a rest ih =>
    obtain ⟨i, o⟩ := a
    simp only [in_window] at ih ⊢
    cases o with
    | none => simpa using ih
    | some ld =>
      by_cases hw : s ≤ ld.time ∧ ld.time < e
      · simp at ih
        simp [hw, ih]
      · simp at ih
        simp [hw, ih]

/-- Recording a rejected marker under a fresh id leaves every customer's
accepted-load list unchanged. -/
theorem get_loads_after_reject (c : Cache) (cid i : ℕ)
    (h : dictGet (cacheHistory c cid) i = none) (cid' : ℕ) :
    get_customer_loads_from_cache
        (dictSet (cacheVivify c cid) cid (dictSet (cacheHistory c cid) i none)) cid'
      = get_customer_loads_from_cache c cid' := by
  by_cases he : cid' = cid
  · subst he
    unfold get_customer_loads_from_cache
    have h1 : cacheHistory
        (dictSet (cacheVivify c cid') cid' (dictSet (cacheHistory c cid') i none)) cid'
        = dictSet (cacheHistory c cid') i none := by
      unfold cacheHistory
      rw [dictGet_dictSet_self]
      rfl
    rw [h1, dictSet_of_get_none _ _ _ h]
    simp
  · unfold get_customer_loads_from_cache cacheHistory
    rw [dictGet_dictSet_ne _ _ _ _ he, dictGet_cacheVivify]
    simp [he]

theorem get_customer_loads_nil (cid : ℕ) :
    get_customer_loads_from_cache ([] : Cache) cid = [] := rfl

/-! ## Lemmas about `load_amount_list` -/

theorem load_amount_list_length (c : Cache) (ls : List Load) :
    (load_amount_list c ls).2.length = ls.length := by
  induction ls generalizing c with
  | nil => rfl
  | cons l rest ih => simp [load_amount_list, ih]

theorem load_amount_list_append (c : Cache) (ls₁ ls₂ : List Load) :
    load_amount_list c (ls₁ ++ ls₂) =
      ((load_amount_list (load_amount_list c ls₁).1 ls₂).1,
       (load_amount_list c ls₁).2 ++ (load_amount_list (load_amount_list c ls₁).1 ls₂).2) := by
  induction ls₁ generalizing c with
  | nil => simp [load_amount_list]
  | cons l rest ih => simp [load_amount_list, ih]

/-! ## Claim theorems -/

/-- C1: a load request whose (customer, request-id) pair is not yet cached is
accepted iff all three rules pass against the pre-request accepted-load set;
on acceptance the full request is recorded under (customer, request-id) and an
accepted outcome is produced, otherwise a rejected marker is recorded under the
same pair and a rejected outcome is produced. -/
theorem c1_fresh_request_decision (c : Cache) (l : Load)
    (h : entryLookup c l.customer_id l.id = none) :
    (load_amount c l).2 = some ⟨l.id, l.customer_id, passes_all_rules c l⟩ ∧
    entryLookup (load_amount c l).1 l.customer_id l.id =
      some (if passes_all_rules c l then some l else none) := by
  rw [load_amount_fresh c l h]
  refine ⟨rfl, ?_⟩
  dsimp only
  rw [entryLookup_dictSet_self, dictGet_dictSet_self]

theorem c1_fresh_request_decision_witness :
    (load_amount [] (Load.mk 1 600 100 0)).2 =
      some ⟨1, 600, passes_all_rules [] (Load.mk 1 600 100 0)⟩ ∧
    entryLookup (load_amount [] (Load.mk 1 600 100 0)).1 600 1 =
      some (if passes_all_rules [] (Load.mk 1 600 100 0) then some (Load.mk 1 600 100 0)
            else none) :=
  c1_fresh_request_decision [] (Load.mk 1 600 100 0) rfl

/-- C2: a load request whose (customer, request-id) pair already has a cache
entry (accepted-load or rejected-marker) produces no outcome and leaves the
entire cache unchanged, regardless of the new request's amount and timestamp,
and the same holds for every further resubmission of that pair. -/
theorem c2_duplicate_ignored (c : Cache) (l : Load) (e : Option Load)
    (h : entryLookup c l.customer_id l.id = some e) :
    (load_amount c l).2 = none ∧ (load_amount c l).1 = c ∧
    ∀ l₂ : Load, l₂.customer_id = l.customer_id → l₂.id = l.id →
      (load_amount c l₂).2 = none ∧ (load_amount c l₂).1 = c := by
  have h1 := load_amount_dup c l e h
  refine ⟨by rw [h1], by rw [h1], ?_⟩
  intro l₂ hc hi
  have h2 : entryLookup c l₂.customer_id l₂.id = some e := by
    rw [hc, hi]; exact h
  have h3 := load_amount_dup c l₂ e h2
  exact ⟨by rw [h3], by rw [h3]⟩

theorem c2_duplicate_ignored_witness :
    (load_amount [(600, [(1, some (Load.mk 1 600 100 0))])] (Load.mk 1 600 999 5000)).2
      = none ∧
    (load_amount [(600, [(1, some (Load.mk 1 600 100 0))])] (Load.mk 1 600 999 5000)).1
      = [(600, [(1, some (Load.mk 1 600 100 0))])] ∧
    ∀ l₂ : Load, l₂.customer_id = (Load.mk 1 600 999 5000).customer_id →
      l₂.id = (Load.mk 1 600 999 5000).id →
      (load_amount [(600, [(1, some (Load.mk 1 600 100 0))])] l₂).2 = none ∧
      (load_amount [(600, [(1, some (Load.mk 1 600 100 0))])] l₂).1
        = [(600, [(1, some (Load.mk 1 600 100 0))])] :=
  c2_duplicate_ignored [(600, [(1, some (Load.mk 1 600 100 0))])]
    (Load.mk 1 600 999 5000) (some (Load.mk 1 600 100 0)) rfl

/-- C9: the cache grows monotonically under processing a request — every
(customer, request-id) entry present beforehand is still present afterward
with the same value, and every customer present stays present. -/
theorem c9_cache_monotone (c : Cache) (l : Load) (cid i : ℕ) (e : Option Load)
    (h : entryLookup c cid i = some e) :
    entryLookup (load_amount c l).1 cid i = some e ∧
    ∀ cid', (dictGet c cid').isSome = true →
      (dictGet (load_amount c l).1 cid').isSome = true := by
  cases hd : entryLookup c l.customer_id l.id with
  | some e' =>
    rw [load_amount_dup c l e' hd]
    exact ⟨h, fun cid' hs => hs⟩
  | none =>
    rw [load_amount_fresh c l hd]
    dsimp only
    constructor
    · by_cases he : cid = l.customer_id
      · subst he
        rw [entryLookup_dictSet_self]
        have hne : i ≠ l.id := by
          intro hh
          rw [hh] at h
          rw [h] at hd
          exact Option.noConfusion hd
        rw [dictGet_dictSet_ne _ _ _ _ hne]
        exact h
      · rw [entryLookup_dictSet_ne _ _ _ _ _ he, entryLookup_cacheVivify]
        exact h
    · intro cid' hs
      by_cases he : cid' = l.customer_id
      · subst he
        rw [dictGet_dictSet_self]
        rfl
      · rw [dictGet_dictSet_ne _ _ _ _ he, dictGet_cacheVivify]
        simp [he, hs]

theorem c9_cache_monotone_witness :
    entryLookup (load_amount [(600, [(1, some (Load.mk 1 600 100 0))])]
        (Load.mk 2 600 50 0)).1 600 1 = some (some (Load.mk 1 600 100 0)) ∧
    ∀ cid', (dictGet [(600, [(1, some (Load.mk 1 600 100 0))])] cid').isSome = true →
      (dictGet (load_amount [(600, [(1, some (Load.mk 1 600 100 0))])]
        (Load.mk 2 600 50 0)).1 cid').isSome = true :=
  c9_cache_monotone [(600, [(1, some (Load.mk 1 600 100 0))])]
    (Load.mk 2 600 50 0) 600 1 (some (Load.mk 1 600 100 0)) rfl

/-- C10: processing a request touches only its own customer's history — every
other customer's mapping is unchanged; the produced outcome depends only on
the request's own customer's history; and a fresh (customer, request-id) pair
is never ignored (a matching request id recorded under a different customer
does not suppress it). -/
theorem c10_customer_isolation (c c₂ : Cache) (l : Load) (cid : ℕ) :
    (cid ≠ l.customer_id → dictGet (load_amount c l).1 cid = dictGet c cid) ∧
    (cacheHistory c l.customer_id = cacheHistory c₂ l.customer_id →
      (load_amount c l).2 = (load_amount c₂ l).2) ∧
    (entryLookup c l.customer_id l.id = none →
      ((load_amount c l).2).isSome = true) := by
  refine ⟨?_, ?_, ?_⟩
  · intro hne
    cases hd : entryLookup c l.customer_id l.id with
    | some e' => rw [load_amount_dup c l e' hd]
    | none =>
      rw [load_amount_fresh c l hd]
      dsimp only
      rw [dictGet_dictSet_ne _ _ _ _ hne, dictGet_cacheVivify]
      simp [hne]
  · intro hh
    have hlk : entryLookup c l.customer_id l.id = entryLookup c₂ l.customer_id l.id := by
      unfold entryLookup
      rw [hh]
    cases hd : entryLookup c l.customer_id l.id with
    | some e' =>
      have hd₂ : entryLookup c₂ l.customer_id l.id = some e' := by
        rw [← hlk]; exact hd
      rw [load_amount_dup c l e' hd, load_amount_dup c₂ l e' hd₂]
    | none =>
      have hd₂ : entryLookup c₂ l.customer_id l.id = none := by
        rw [← hlk]; exact hd
      rw [load_amount_fresh c l hd, load_amount_fresh c₂ l hd₂]
      dsimp only
      rw [passes_all_rules_congr c c₂ l hh]
  · intro hd
    rw [load_amount_fresh c l hd]
    rfl

theorem c10_customer_isolation_witness :
    dictGet (load_amount [(700, [(1, some (Load.mk 1 700 100 0))])]
        (Load.mk 1 600 100 0)).1 700
      = dictGet [(700, [(1, some (Load.mk 1 700 100 0))])] 700 ∧
    ((load_amount [(700, [(1, some (Load.mk 1 700 100 0))])]
        (Load.mk 1 600 100 0)).2).isSome = true :=
  ⟨(c10_customer_isolation [(700, [(1, some (Load.mk 1 700 100 0))])]
      [(700, [(1, some (Load.mk 1 700 100 0))])] (Load.mk 1 600 100 0) 700).1
      (by decide),
   (c10_customer_isolation [(700, [(1, some (Load.mk 1 700 100 0))])]
      [(700, [(1, some (Load.mk 1 700 100 0))])] (Load.mk 1 600 100 0) 700).2.2
      (by decide)⟩

/-- C3: the daily amount rule passes exactly when the summed amounts of the
customer's accepted-load entries inside the day window, plus the request's own
amount, is ≤ 5000; for a customer with no prior history a request of exactly
5000 is accepted and one of 5000.01 is rejected. -/
theorem c3_daily_amount_rule (c : Cache) (l : Load) :
    (meets_max_load_criteria c l (get_day_start_end_times l.time).1
        (get_day_start_end_times l.time).2 MAX_LOAD_AMOUNT_PER_DAY = true ↔
      ((accepted_entries_in_window c l.customer_id (get_day_start_end_times l.time).1
          (get_day_start_end_times l.time).2).map Load.amount).sum + l.amount ≤ 5000) ∧
    (load_amount [] (Load.mk 1 600 5000 0)).2 = some ⟨1, 600, true⟩ ∧
    (load_amount [] (Load.mk 2 600 5000.01 0)).2 = some ⟨2, 600, false⟩ := by
  refine ⟨?_,
    by norm_num [load_amount, passes_all_rules, meets_max_load_criteria,
      meets_max_num_load_criteria, get_customer_loads_from_cache, cacheHistory,
      cacheVivify, dictGet, dictSet, entryLookup, get_day_start_end_times,
      get_week_start_end_times, in_window, MAX_LOAD_AMOUNT_PER_DAY,
      MAX_LOAD_AMOUNT_PER_WEEK, MAX_NUM_LOADS_PER_DAY, List.filterMap_cons,
      List.filter_cons],
    by norm_num [load_amount, passes_all_rules, meets_max_load_criteria,
      meets_max_num_load_criteria, get_customer_loads_from_cache, cacheHistory,
      cacheVivify, dictGet, dictSet, entryLookup, get_day_start_end_times,
      get_week_start_end_times, in_window, MAX_LOAD_AMOUNT_PER_DAY,
      MAX_LOAD_AMOUNT_PER_WEEK, MAX_NUM_LOADS_PER_DAY, List.filterMap_cons,
      List.filter_cons]⟩
  simp only [meets_max_load_criteria]
  rw [filter_loads_eq_accepted_entries]
  simp [MAX_LOAD_AMOUNT_PER_DAY]

/-- C4: the weekly amount rule passes exactly when the summed amounts of the
customer's accepted-load entries inside the Monday-start week window, plus the
request's own amount, is ≤ 20000; a request pushing the cumulative weekly
total past 20000 is rejected even though it satisfies the daily rules. -/
theorem c4_weekly_amount_rule (c : Cache) (l : Load) :
    (meets_max_load_criteria c l (get_week_start_end_times l.time).1
        (get_week_start_end_times l.time).2 MAX_LOAD_AMOUNT_PER_WEEK = true ↔
      ((accepted_entries_in_window c l.customer_id (get_week_start_end_times l.time).1
          (get_week_start_end_times l.time).2).map Load.amount).sum + l.amount ≤ 20000) ∧
    (process_loads [] [Load.mk 101 600 5000 0, Load.mk 102 600 5000 86400,
        Load.mk 103 600 5000 172800, Load.mk 104 600 5000 259200,
        Load.mk 105 600 1 345600]).2 =
      [⟨101, 600, true⟩, ⟨102, 600, true⟩, ⟨103, 600, true⟩, ⟨104, 600, true⟩,
       ⟨105, 600, false⟩] ∧
    (meets_max_load_criteria
        (load_amount_list [] [Load.mk 101 600 5000 0, Load.mk 102 600 5000 86400,
          Load.mk 103 600 5000 172800, Load.mk 104 600 5000 259200]).1
        (Load.mk 105 600 1 345600) 345600 432000 MAX_LOAD_AMOUNT_PER_DAY = true ∧
      meets_max_num_load_criteria
        (load_amount_list [] [Load.mk 101 600 5000 0, Load.mk 102 600 5000 86400,
          Load.mk 103 600 5000 172800, Load.mk 104 600 5000 259200]).1
        (Load.mk 105 600 1 345600) 345600 432000 MAX_NUM_LOADS_PER_DAY = true ∧
      meets_max_load_criteria
        (load_amount_list [] [Load.mk 101 600 5000 0, Load.mk 102 600 5000 86400,
          Load.mk 103 600 5000 172800, Load.mk 104 600 5000 259200]).1
        (Load.mk 105 600 1 345600) 0 604800 MAX_LOAD_AMOUNT_PER_WEEK = false) := by
  refine ⟨?_,
    by norm_num [process_loads, load_amount_list, load_amount, passes_all_rules,
      meets_max_load_criteria, meets_max_num_load_criteria,
      get_customer_loads_from_cache, cacheHistory, cacheVivify, dictGet, dictSet,
      entryLookup, get_day_start_end_times, get_week_start_end_times, in_window,
      MAX_LOAD_AMOUNT_PER_DAY, MAX_LOAD_AMOUNT_PER_WEEK, MAX_NUM_LOADS_PER_DAY,
      List.filterMap_cons, List.filter_cons],
    by norm_num [load_amount_list, load_amount, passes_all_rules,
      meets_max_load_criteria, meets_max_num_load_criteria,
      get_customer_loads_from_cache, cacheHistory, cacheVivify, dictGet, dictSet,
      entryLookup, get_day_start_end_times, get_week_start_end_times, in_window,
      MAX_LOAD_AMOUNT_PER_DAY, MAX_LOAD_AMOUNT_PER_WEEK, MAX_NUM_LOADS_PER_DAY,
      List.filterMap_cons, List.filter_cons],
    by norm_num [load_amount_list, load_amount, passes_all_rules,
      meets_max_load_criteria, meets_max_num_load_criteria,
      get_customer_loads_from_cache, cacheHistory, cacheVivify, dictGet, dictSet,
      entryLookup, get_day_start_end_times, get_week_start_end_times, in_window,
      MAX_LOAD_AMOUNT_PER_DAY, MAX_LOAD_AMOUNT_PER_WEEK, MAX_NUM_LOADS_PER_DAY,
      List.filterMap_cons, List.filter_cons],
    by norm_num [load_amount_list, load_amount, passes_all_rules,
      meets_max_load_criteria, meets_max_num_load_criteria,
      get_customer_loads_from_cache, cacheHistory, cacheVivify, dictGet, dictSet,
      entryLookup, get_day_start_end_times, get_week_start_end_times, in_window,
      MAX_LOAD_AMOUNT_PER_DAY, MAX_LOAD_AMOUNT_PER_WEEK, MAX_NUM_LOADS_PER_DAY,
      List.filterMap_cons, List.filter_cons]⟩
  simp only [meets_max_load_criteria]
  rw [filter_loads_eq_accepted_entries]
  simp [MAX_LOAD_AMOUNT_PER_WEEK]

/-- C5: the daily count rule passes exactly when the customer has strictly
fewer than 3 accepted-load entries in the day window; recording a rejection
or processing an ignored duplicate changes neither the count criterion nor
the amount criterion of any later evaluation. -/
theorem c5_daily_count_rule (c : Cache) (l : Load) (s e : ℕ) :
    (meets_max_num_load_criteria c l s e MAX_NUM_LOADS_PER_DAY = true ↔
      (accepted_entries_in_window c l.customer_id s e).length < 3) ∧
    (∀ l' : Load, entryLookup c l'.customer_id l'.id = none →
      passes_all_rules c l' = false →
      meets_max_num_load_criteria (load_amount c l').1 l s e MAX_NUM_LOADS_PER_DAY
        = meets_max_num_load_criteria c l s e MAX_NUM_LOADS_PER_DAY ∧
      ∀ q : ℚ, meets_max_load_criteria (load_amount c l').1 l s e q
        = meets_max_load_criteria c l s e q) ∧
    (∀ l'' : Load, ∀ e'' : Option Load, entryLookup c l''.customer_id l''.id = some e'' →
      meets_max_num_load_criteria (load_amount c l'').1 l s e MAX_NUM_LOADS_PER_DAY
        = meets_max_num_load_criteria c l s e MAX_NUM_LOADS_PER_DAY ∧
      ∀ q : ℚ, meets_max_load_criteria (load_amount c l'').1 l s e q
        = meets_max_load_criteria c l s e q) := by
  refine ⟨?_, ?_, ?_⟩
  · simp only [meets_max_num_load_criteria]
    rw [filter_loads_eq_accepted_entries]
    simp [MAX_NUM_LOADS_PER_DAY]
  · intro l' h1 h2
    rw [load_amount_fresh c l' h1]
    dsimp only
    simp only [h2, Bool.false_eq_true, if_false]
    exact ⟨meets_max_num_load_criteria_congr_loads _ _ _ _ _ _
        (get_loads_after_reject c _ _ h1 _),
      fun q => meets_max_load_criteria_congr_loads _ _ _ _ _ _
        (get_loads_after_reject c _ _ h1 _)⟩
  · intro l'' e'' h''
    rw [load_amount_dup c l'' e'' h'']
    exact ⟨rfl, fun q => rfl⟩

theorem c5_daily_count_rule_witness :
    meets_max_num_load_criteria (load_amount [] (Load.mk 5 600 6000 0)).1
        (Load.mk 9 600 1 0) 0 86400 MAX_NUM_LOADS_PER_DAY
      = meets_max_num_load_criteria [] (Load.mk 9 600 1 0) 0 86400 MAX_NUM_LOADS_PER_DAY :=
  ((c5_daily_count_rule [] (Load.mk 9 600 1 0) 0 86400).2.1 (Load.mk 5 600 6000 0)
    rfl (by norm_num [passes_all_rules, meets_max_load_criteria,
      meets_max_num_load_criteria, get_customer_loads_from_cache, cacheHistory,
      dictGet, in_window, get_day_start_end_times, get_week_start_end_times,
      MAX_LOAD_AMOUNT_PER_DAY, MAX_LOAD_AMOUNT_PER_WEEK, MAX_NUM_LOADS_PER_DAY])).1

/-- C7: the day window is the half-open interval of the UTC calendar day
containing the request's timestamp and the week window starts at midnight of
the Monday on or before it (timestamps count seconds from 0001-01-01T00:00:00,
a Monday, so a day index divisible by 7 is a Monday); a timestamp exactly at
the window end is not in the window. -/
theorem c7_window_semantics (t : ℕ) :
    (get_day_start_end_times t).1 = t / 86400 * 86400 ∧
    (get_day_start_end_times t).1 % 86400 = 0 ∧
    (get_day_start_end_times t).1 ≤ t ∧
    t < (get_day_start_end_times t).2 ∧
    (get_day_start_end_times t).2 = (get_day_start_end_times t).1 + 86400 ∧
    (get_week_start_end_times t).1 % 86400 = 0 ∧
    (get_week_start_end_times t).1 / 86400 % 7 = 0 ∧
    (get_week_start_end_times t).1 ≤ t ∧
    t < (get_week_start_end_times t).2 ∧
    (get_week_start_end_times t).2 = (get_week_start_end_times t).1 + 7 * 86400 ∧
    in_window (get_day_start_end_times t).1 (get_day_start_end_times t).2
      (get_day_start_end_times t).2 = false ∧
    in_window (get_week_start_end_times t).1 (get_week_start_end_times t).2
      (get_week_start_end_times t).2 = false := by
  have hd : get_day_start_end_times t = (t / 86400 * 86400, t / 86400 * 86400 + 86400) := rfl
  have hw : get_week_start_end_times t =
      ((t - t / 86400 % 7 * 86400) / 86400 * 86400,
       (t - t / 86400 % 7 * 86400) / 86400 * 86400 + 7 * 86400) := rfl
  rw [hd, hw]
  refine ⟨rfl, ?_, ?_, ?_, rfl, ?_, ?_, ?_, ?_, rfl, ?_, ?_⟩
  · omega
  · omega
  · omega
  · omega
  · omega
  · omega
  · omega
  · simp [in_window]
  · simp [in_window]

/-- C8: `process_loads` evaluates the requests in the given order, one
(optional) outcome per request, and returns the outcomes of the non-ignored
requests in their original relative order, so the output is never longer than
the input. -/
theorem c8_order_and_length (c : Cache) (ls ls₂ : List Load) :
    (load_amount_list c ls).2.length = ls.length ∧
    (process_loads c ls).2 = (load_amount_list c ls).2.filterMap id ∧
    (process_loads c ls).2.length ≤ ls.length ∧
    load_amount_list c (ls ++ ls₂) =
      ((load_amount_list (load_amount_list c ls).1 ls₂).1,
       (load_amount_list c ls).2 ++ (load_amount_list (load_amount_list c ls).1 ls₂).2) := by
  refine ⟨load_amount_list_length c ls, rfl, ?_, load_amount_list_append c ls ls₂⟩
  calc (process_loads c ls).2.length
      = ((load_amount_list c ls).2.filterMap id).length := rfl
    _ ≤ (load_amount_list c ls).2.length := List.length_filterMap_le _ _
    _ = ls.length := load_amount_list_length c ls

/-- C6 counterexample: on the claim's own scenario — one accepted load and two
rejected same-day attempts — the 4th same-day request (amount 10) is accepted
by the code, not rejected. -/
theorem c6_counterexample :
    (process_loads [] [Load.mk 1 600 10 0, Load.mk 2 600 6000 0, Load.mk 3 600 6000 0,
        Load.mk 4 600 10 0]).2 =
      [⟨1, 600, true⟩, ⟨2, 600, false⟩, ⟨3, 600, false⟩, ⟨4, 600, true⟩] := by
  norm_num [process_loads, load_amount_list, load_amount, passes_all_rules,
    meets_max_load_criteria, meets_max_num_load_criteria,
    get_customer_loads_from_cache, cacheHistory, cacheVivify, dictGet, dictSet,
    entryLookup, get_day_start_end_times, get_week_start_end_times, in_window,
    MAX_LOAD_AMOUNT_PER_DAY, MAX_LOAD_AMOUNT_PER_WEEK, MAX_NUM_LOADS_PER_DAY,
    List.filterMap_cons, List.filter_cons]

/-- C6 amended: rejected entries do not count toward the 3-per-day cap, so a
4th same-day request after only 1 accepted load is evaluated normally; a
request is rejected regardless of its amount whenever the customer already
has at least 3 accepted loads in the request's day window. -/
theorem c6_amended_daily_count (c : Cache) (l : Load)
    (h1 : entryLookup c l.customer_id l.id = none)
    (h2 : 3 ≤ (accepted_entries_in_window c l.customer_id
        (get_day_start_end_times l.time).1 (get_day_start_end_times l.time).2).length) :
    (load_amount c l).2 = some ⟨l.id, l.customer_id, false⟩ := by
  have hcount : meets_max_num_load_criteria c l (get_day_start_end_times l.time).1
      (get_day_start_end_times l.time).2 MAX_NUM_LOADS_PER_DAY = false := by
    simp only [meets_max_num_load_criteria]
    rw [filter_loads_eq_accepted_entries]
    simp [MAX_NUM_LOADS_PER_DAY]
    omega
  have hp : passes_all_rules c l = false := by
    simp only [passes_all_rules]
    simp [hcount]
  rw [load_amount_fresh c l h1]
  dsimp only
  rw [hp]

theorem c6_amended_daily_count_witness :
    (load_amount [(600, [(1, some (Load.mk 1 600 1 0)), (2, some (Load.mk 2 600 1 0)),
        (3, some (Load.mk 3 600 1 0))])] (Load.mk 4 600 1 0)).2
      = some ⟨4, 600, false⟩ :=
  c6_amended_daily_count
    [(600, [(1, some (Load.mk 1 600 1 0)), (2, some (Load.mk 2 600 1 0)),
        (3, some (Load.mk 3 600 1 0))])]
    (Load.mk 4 600 1 0) rfl (by decide)

end Processor
